import Mathlib

/-!
Verification of the chassis odometry core: a shallow embedding, over exact
real numbers, of the `Velocity`/`Odometry` types, the velocity→pose arc
integration, SE(2) pose composition, the trajectory predictor, and the
`Display` rendering.  `f32` values are modelled as `ℝ`, `f32::sin`/`cos`
as `Real.sin`/`Real.cos`, and `std::time::Duration` as its nonnegative
value in seconds.
-/

namespace Chassis

/-- `f32::EPSILON = 2⁻²³`, the machine epsilon used as small-angle threshold. -/
noncomputable def f32EPSILON : ℝ := 1 / 2 ^ 23

/-- Shallow embedding of nalgebra `Isometry2<f32>`: an SE(2) rigid transform
with translation `(x, y)` and unit-complex rotation `(re, im)`. -/
@[ext] structure Iso2 where
  x : ℝ
  y : ℝ
  re : ℝ
  im : ℝ

/-- `lib.rs`'s `isometry(x, y, cos, sin)` helper: assembles the transform
directly from translation and rotation components. -/
def isometry (x y c s : ℝ) : Iso2 := ⟨x, y, c, s⟩

/-- nalgebra's `Isometry2::new(translation, angle)`: the rotation part is the
unit complex number of the given angle. -/
noncomputable def isometryNew (x y theta : ℝ) : Iso2 :=
  ⟨x, y, Real.cos theta, Real.sin theta⟩

/-- nalgebra isometry composition (`self.pose *= rhs.pose`): the left
translation plus the left rotation applied to the right translation, and the
product of the unit-complex rotations. -/
def Iso2.mul (p q : Iso2) : Iso2 :=
  ⟨p.x + (p.re * q.x - p.im * q.y),
   p.y + (p.im * q.x + p.re * q.y),
   p.re * q.re - p.im * q.im,
   p.re * q.im + p.im * q.re⟩

/-- The action of a rigid transform on a point of the plane: rotate, then
translate. -/
def Iso2.apply (p : Iso2) (q : ℝ × ℝ) : ℝ × ℝ :=
  (p.x + (p.re * q.1 - p.im * q.2), p.y + (p.im * q.1 + p.re * q.2))

/-- nalgebra `UnitComplex::angle()`: `atan2(im, re)`, i.e. the argument of the
rotation viewed as a complex number. -/
noncomputable def Iso2.angle (p : Iso2) : ℝ := Complex.arg ⟨p.re, p.im⟩

/-- `Velocity` (lib.rs): linear speed `v` (m/s) and angular speed `w` (rad/s)
of the rotation center relative to the ground. -/
@[ext] structure Velocity where
  v : ℝ
  w : ℝ

/-- `Odometry` (odometry.rs): total path length `s`, total absolute rotation
`a`, and the current pose. -/
@[ext] structure Odometry where
  s : ℝ
  a : ℝ
  pose : Iso2

/-- `Odometry::ZERO`: zero accumulators and the identity pose. -/
def Odometry.ZERO : Odometry := ⟨0, 0, ⟨0, 0, 1, 0⟩⟩

/-- `Velocity::to_odometry` (lib.rs): the odometry increment of moving at this
velocity for one second, with the straight-line branch below `f32::EPSILON`
and the closed-form arc branch otherwise. -/
noncomputable def Velocity.to_odometry (self : Velocity) : Odometry :=
  let s := self.v
  let theta := self.w
  let a := |theta|
  let sin := Real.sin theta
  let cos := Real.cos theta
  { s := |s|
    a := a
    pose :=
      if a < f32EPSILON then
        isometry s 0 cos sin
      else
        let radius := s / theta
        isometry (radius * sin) (radius * (1 - cos)) cos sin }

/-- `impl From<Velocity> for Odometry` (odometry.rs): the same increment built
through `Isometry2::new`, with the translation `Vector2::new(sin θ, 1 − cos θ)
* (s / θ)` in the arc branch. -/
noncomputable def Odometry.fromVelocity (vel : Velocity) : Odometry :=
  let s := vel.v
  let theta := vel.w
  let a := |theta|
  { s := |s|
    a := a
    pose :=
      if a < f32EPSILON then
        isometryNew s 0 theta
      else
        isometryNew (Real.sin theta * (s / theta))
          ((1 - Real.cos theta) * (s / theta)) theta }

/-- `impl MulAssign<f32> for Velocity`: scale both components in place. -/
def Velocity.mul_assign (self : Velocity) (rhs : ℝ) : Velocity :=
  ⟨self.v * rhs, self.w * rhs⟩

/-- `impl Mul<f32> for Velocity`: value-returning scaling, defined through the
in-place form exactly as in the source. -/
def Velocity.mul (self : Velocity) (rhs : ℝ) : Velocity :=
  self.mul_assign rhs

/-- `impl Mul<Duration> for Velocity`: scale by the duration's seconds, then
integrate (`(self * rhs.as_secs_f32()).to_odometry()`). -/
noncomputable def Velocity.mulDuration (self : Velocity) (secs : ℝ) : Odometry :=
  (self.mul secs).to_odometry

/-- `impl AddAssign for Odometry`: accumulators add, poses compose by SE(2)
multiplication. -/
def Odometry.add_assign (self rhs : Odometry) : Odometry :=
  { s := self.s + rhs.s
    a := self.a + rhs.a
    pose := self.pose.mul rhs.pose }

/-- `impl Add for Odometry`: copy, then `+=`. -/
def Odometry.add (self rhs : Odometry) : Odometry :=
  self.add_assign rhs

instance : Add Odometry := ⟨Odometry.add⟩

/-- Modelled from the spec: the unified chassis-model operation
`volocity_from` that `TrajectoryPredictor::next` invokes on its model.  Its
declaration is missing from the sources — `lib.rs` declares only the split
`drive`/`measure` variant of `ChassisModel`, while the spec (§4.3, §9)
describes the stable contract as a single deterministic, side-effect-free
conversion from a chassis state to a `Velocity`. -/
structure ChassisModel (State : Type) where
  volocity_from : State → Velocity

/-- `TrajectoryPredictor` (predict.rs): a control period, a chassis model and
a status predictor. -/
structure TrajectoryPredictor (State P : Type) where
  period : ℝ
  model : ChassisModel State
  predictor : P

/-- `Iterator::next` for `TrajectoryPredictor` (predict.rs):
`self.predictor.predict().map(|s| self.model.volocity_from(&s) * self.period)`.
The `&mut self` call to `predict` is modelled by a step function returning
the optional state together with the successor predictor state. -/
noncomputable def TrajectoryPredictor.next {State P : Type}
    (step : P → Option State × P) (self : TrajectoryPredictor State P) :
    Option Odometry × TrajectoryPredictor State P :=
  ((step self.predictor).1.map fun s =>
      (self.model.volocity_from s).mulDuration self.period,
   { self with predictor := (step self.predictor).2 })

/-- Fixed-point decimal rendering of an integer `n` standing for a real value
scaled by `10 ^ d`: sign, integer part, point, `d` zero-padded fraction
digits. -/
def renderScaled (n : ℤ) (d : ℕ) : String :=
  let intPart := toString (n.natAbs / 10 ^ d)
  let fracDigits := toString (n.natAbs % 10 ^ d)
  let frac := String.mk (List.replicate (d - fracDigits.length) '0') ++ fracDigits
  (if n < 0 then "-" else "") ++ intPart ++ "." ++ frac

/-- Rust's `{:.d}` fixed-precision float formatting, modelled as decimal
rounding of the exact real value. -/
noncomputable def fmtFixed (d : ℕ) (x : ℝ) : String :=
  renderScaled (round (x * 10 ^ d)) d

/-- `f32::to_degrees`: multiply by `180 / π`. -/
noncomputable def toDegrees (x : ℝ) : ℝ := x * (180 / Real.pi)

/-- `impl Display for Odometry` (odometry.rs): the format string
`Odometry: \x7b\x7b s: {:.3}, a: {:.1}°, x: {:.3}, y: {:.3}, theta: {:.1}° \x7d\x7d`
applied to `s`, `a.to_degrees()`, the translation components, and
`rotation.angle().to_degrees()`. -/
noncomputable def Odometry.display (o : Odometry) : String :=
  "Odometry: \x7b s: " ++ fmtFixed 3 o.s ++
    ", a: " ++ fmtFixed 1 (toDegrees o.a) ++
    "°, x: " ++ fmtFixed 3 o.pose.x ++
    ", y: " ++ fmtFixed 3 o.pose.y ++
    ", theta: " ++ fmtFixed 1 (toDegrees o.pose.angle) ++ "° \x7d"

/-! ### Helper lemmas -/

/-- The straight-line branch of `Velocity::to_odometry`, in closed form. -/
theorem to_odometry_line (s theta : ℝ) (h : |theta| < f32EPSILON) :
    Velocity.to_odometry ⟨s, theta⟩ =
      ⟨|s|, |theta|, ⟨s, 0, Real.cos theta, Real.sin theta⟩⟩ := by
  simp only [Velocity.to_odometry, isometry, if_pos h]

/-- The arc branch of `Velocity::to_odometry`, in closed form. -/
theorem to_odometry_arc (s theta : ℝ) (h : f32EPSILON ≤ |theta|) :
    Velocity.to_odometry ⟨s, theta⟩ =
      ⟨|s|, |theta|,
        ⟨s / theta * Real.sin theta, s / theta * (1 - Real.cos theta),
          Real.cos theta, Real.sin theta⟩⟩ := by
  simp only [Velocity.to_odometry, isometry, if_neg (not_lt.mpr h)]

/-- The two integration implementations compute the same increment. -/
theorem to_odometry_eq_fromVelocity (vel : Velocity) :
    vel.to_odometry = Odometry.fromVelocity vel := by
  obtain ⟨s, theta⟩ := vel
  by_cases h : |theta| < f32EPSILON
  · rw [to_odometry_line s theta h]
    simp only [Odometry.fromVelocity, isometryNew, if_pos h]
  · rw [to_odometry_arc s theta (not_lt.mp h)]
    simp only [Odometry.fromVelocity, isometryNew, if_neg h]
    refine Odometry.ext rfl rfl ?_
    refine Iso2.ext ?_ ?_ rfl rfl <;> ring

/-! ### Claims -/

/-- C1: for every pre-scaled velocity `{v: s, w: theta}` with
`|theta| ≥ f32::EPSILON`, both integration functions produce an increment
whose pose translates by `(r·sin θ, r·(1 − cos θ))` with `r = s / θ` and
whose rotation is the unit complex of the heading change `θ`. -/
theorem arc_case_integration (s theta : ℝ) (h : f32EPSILON ≤ |theta|) :
    ((Velocity.to_odometry ⟨s, theta⟩).pose.x = s / theta * Real.sin theta ∧
      (Velocity.to_odometry ⟨s, theta⟩).pose.y =
        s / theta * (1 - Real.cos theta) ∧
      (Velocity.to_odometry ⟨s, theta⟩).pose.re = Real.cos theta ∧
      (Velocity.to_odometry ⟨s, theta⟩).pose.im = Real.sin theta) ∧
    (Odometry.fromVelocity ⟨s, theta⟩).pose.x = s / theta * Real.sin theta ∧
      (Odometry.fromVelocity ⟨s, theta⟩).pose.y =
        s / theta * (1 - Real.cos theta) ∧
      (Odometry.fromVelocity ⟨s, theta⟩).pose.re = Real.cos theta ∧
      (Odometry.fromVelocity ⟨s, theta⟩).pose.im = Real.sin theta := by
  rw [← to_odometry_eq_fromVelocity, to_odometry_arc s theta h]
  exact ⟨⟨rfl, rfl, rfl, rfl⟩, rfl, rfl, rfl, rfl⟩

/-- Witness for `arc_case_integration` at `s = 2`, `theta = 1`. -/
theorem arc_case_integration_witness :
    f32EPSILON ≤ |(1 : ℝ)| ∧
      (Velocity.to_odometry ⟨2, 1⟩).pose.x = 2 / 1 * Real.sin 1 :=
  ⟨by rw [abs_one]; norm_num [f32EPSILON],
   (arc_case_integration 2 1 (by rw [abs_one]; norm_num [f32EPSILON])).1.1⟩

/-- C2 counterexample: at `theta = 2⁻²⁴` (below the threshold) the increment's
rotation component is not the identity — its imaginary part `sin θ` is
nonzero, refuting "zero rotation, i.e. an identity rotation component". -/
theorem line_case_identity_counterexample :
    |(1 : ℝ) / 2 ^ 24| < f32EPSILON ∧
      (Velocity.to_odometry ⟨0, 1 / 2 ^ 24⟩).pose.im ≠ 0 := by
  have h : |(1 : ℝ) / 2 ^ 24| < f32EPSILON := by
    rw [abs_of_pos (by norm_num)]
    norm_num [f32EPSILON]
  refine ⟨h, ?_⟩
  rw [to_odometry_line 0 (1 / 2 ^ 24) h]
  exact ne_of_gt (Real.sin_pos_of_pos_of_lt_pi (by norm_num)
    (lt_trans (by norm_num) Real.pi_gt_three))

/-- C2 (amended): for `|theta| < f32::EPSILON`, both integration functions
produce an increment whose pose translates by `(s, 0)` and whose rotation is
the unit complex of `theta` — the identity exactly when `theta = 0` — rather
than an exactly-identity rotation. -/
theorem line_case_integration (s theta : ℝ) (h : |theta| < f32EPSILON) :
    ((Velocity.to_odometry ⟨s, theta⟩).pose.x = s ∧
      (Velocity.to_odometry ⟨s, theta⟩).pose.y = 0 ∧
      (Velocity.to_odometry ⟨s, theta⟩).pose.re = Real.cos theta ∧
      (Velocity.to_odometry ⟨s, theta⟩).pose.im = Real.sin theta) ∧
    ((Odometry.fromVelocity ⟨s, theta⟩).pose.x = s ∧
      (Odometry.fromVelocity ⟨s, theta⟩).pose.y = 0 ∧
      (Odometry.fromVelocity ⟨s, theta⟩).pose.re = Real.cos theta ∧
      (Odometry.fromVelocity ⟨s, theta⟩).pose.im = Real.sin theta) ∧
    (theta = 0 →
      (Velocity.to_odometry ⟨s, theta⟩).pose.re = 1 ∧
        (Velocity.to_odometry ⟨s, theta⟩).pose.im = 0) := by
  rw [← to_odometry_eq_fromVelocity, to_odometry_line s theta h]
  refine ⟨⟨rfl, rfl, rfl, rfl⟩, ⟨rfl, rfl, rfl, rfl⟩, ?_⟩
  rintro rfl
  simp

/-- Witness for `line_case_integration` at `s = 5`, `theta = 0`. -/
theorem line_case_integration_witness :
    |(0 : ℝ)| < f32EPSILON ∧ (Velocity.to_odometry ⟨5, 0⟩).pose.x = 5 :=
  ⟨by rw [abs_zero]; norm_num [f32EPSILON],
   (line_case_integration 5 0 (by rw [abs_zero]; norm_num [f32EPSILON])).1.1⟩

/-- C9: the two integration implementations, `Velocity::to_odometry` in
lib.rs and `Odometry::from(Velocity)` in odometry.rs, return equal
increments (same `s`, same `a`, same pose) for every velocity. -/
theorem integrations_agree (vel : Velocity) :
    vel.to_odometry = Odometry.fromVelocity vel :=
  to_odometry_eq_fromVelocity vel

/-- C3: composition adds the `s` and `a` accumulators arithmetically and
composes the poses by the SE(2) rigid-transform product — equivalently, the
composed pose acts on every point as `B`'s transform followed by `A`'s. -/
theorem composition_law (A B : Odometry) :
    (A + B).s = A.s + B.s ∧ (A + B).a = A.a + B.a ∧
      (A + B).pose = A.pose.mul B.pose ∧
      ∀ q : ℝ × ℝ, (A + B).pose.apply q = A.pose.apply (B.pose.apply q) := by
  refine ⟨rfl, rfl, rfl, fun q => ?_⟩
  show (A.pose.mul B.pose).apply q = _
  simp only [Iso2.mul, Iso2.apply, Prod.mk.injEq]
  constructor <;> ring

/-- C5: composition is associative, componentwise on the accumulators and as
SE(2) transforms on the poses. -/
theorem composition_assoc (A B C : Odometry) :
    (A + B + C).s = (A + (B + C)).s ∧
      (A + B + C).a = (A + (B + C)).a ∧
      (A + B + C).pose = (A + (B + C)).pose := by
  refine ⟨add_assoc A.s B.s C.s, add_assoc A.a B.a C.a, ?_⟩
  show (A.pose.mul B.pose).mul C.pose = A.pose.mul (B.pose.mul C.pose)
  refine Iso2.ext ?_ ?_ ?_ ?_ <;> simp only [Iso2.mul] <;> ring

/-- The `s` accumulator of an increment is the absolute linear component. -/
theorem to_odometry_s (vel : Velocity) : vel.to_odometry.s = |vel.v| := rfl

/-- The `a` accumulator of an increment is the absolute angular component. -/
theorem to_odometry_a (vel : Velocity) : vel.to_odometry.a = |vel.w| := rfl

/-- Folding increments over a list never decreases the `s` accumulator. -/
theorem foldl_s_le (vels : List Velocity) : ∀ o : Odometry,
    o.s ≤ (vels.foldl (fun acc vel => acc + vel.to_odometry) o).s := by
  induction vels with
  | nil => exact fun o => le_refl _
  | cons vel rest ih =>
    intro o
    refine le_trans ?_ (ih (o + vel.to_odometry))
    show o.s ≤ o.s + |vel.v|
    exact le_add_of_nonneg_right (abs_nonneg _)

/-- Folding increments over a list never decreases the `a` accumulator. -/
theorem foldl_a_le (vels : List Velocity) : ∀ o : Odometry,
    o.a ≤ (vels.foldl (fun acc vel => acc + vel.to_odometry) o).a := by
  induction vels with
  | nil => exact fun o => le_refl _
  | cons vel rest ih =>
    intro o
    refine le_trans ?_ (ih (o + vel.to_odometry))
    show o.a ≤ o.a + |vel.w|
    exact le_add_of_nonneg_right (abs_nonneg _)

/-- C4: increments built from velocities have non-negative `s` and `a`;
composing one onto a running total never decreases the total's `s` and `a`,
strictly increases them when the increment's `s` resp. `a` is nonzero
(whatever the signs of `v` and `w`), and folding any sequence of velocity
increments never decreases them. -/
theorem monotone_accumulators (total : Odometry) (vel : Velocity)
    (vels : List Velocity) :
    0 ≤ vel.to_odometry.s ∧ 0 ≤ vel.to_odometry.a ∧
      total.s ≤ (total + vel.to_odometry).s ∧
      total.a ≤ (total + vel.to_odometry).a ∧
      (vel.to_odometry.s ≠ 0 → total.s < (total + vel.to_odometry).s) ∧
      (vel.to_odometry.a ≠ 0 → total.a < (total + vel.to_odometry).a) ∧
      total.s ≤ (vels.foldl (fun acc w => acc + w.to_odometry) total).s ∧
      total.a ≤ (vels.foldl (fun acc w => acc + w.to_odometry) total).a := by
  refine ⟨abs_nonneg _, abs_nonneg _, le_add_of_nonneg_right (abs_nonneg _),
    le_add_of_nonneg_right (abs_nonneg _), ?_, ?_,
    foldl_s_le vels total, foldl_a_le vels total⟩
  · intro hs
    exact lt_add_of_pos_right _ (lt_of_le_of_ne (abs_nonneg _) (Ne.symm hs))
  · intro ha
    exact lt_add_of_pos_right _ (lt_of_le_of_ne (abs_nonneg _) (Ne.symm ha))

/-- Witness for `monotone_accumulators` at the zero total and the velocity
`{v: 1, w: -1}` (backward-compatible with a clockwise turn). -/
theorem monotone_accumulators_witness :
    Odometry.ZERO.s < (Odometry.ZERO + (Velocity.mk 1 (-1)).to_odometry).s ∧
      Odometry.ZERO.a < (Odometry.ZERO + (Velocity.mk 1 (-1)).to_odometry).a :=
  ⟨(monotone_accumulators Odometry.ZERO ⟨1, -1⟩ []).2.2.2.2.1
      (by rw [to_odometry_s]; norm_num),
   (monotone_accumulators Odometry.ZERO ⟨1, -1⟩ []).2.2.2.2.2.1
      (by rw [to_odometry_a]; norm_num)⟩

/-- Scaling a velocity whose angular part is zero and integrating yields a
pure translation with zero accumulated rotation. -/
theorem mulDuration_w_zero (v t : ℝ) :
    (Velocity.mk v 0).mulDuration t = ⟨|v * t|, 0, ⟨v * t, 0, 1, 0⟩⟩ := by
  have h0 : (Velocity.mk v 0).mul t = ⟨v * t, 0⟩ := by
    simp [Velocity.mul, Velocity.mul_assign]
  have he : |(0 : ℝ)| < f32EPSILON := by rw [abs_zero]; norm_num [f32EPSILON]
  simp only [Velocity.mulDuration, h0, to_odometry_line (v * t) 0 he,
    Real.cos_zero, Real.sin_zero, abs_zero]

/-- C6: for `w = 0`, any `v` and any duration `t`, the increment is a pure
translation `(v·t, 0)` of magnitude `|v·t|` with identity rotation and `a`
exactly zero; zero duration or zero velocity yields `s = 0`, `a = 0` and the
identity pose, i.e. `Odometry::ZERO`. -/
theorem straight_line_limit (v t : ℝ) (vel : Velocity) (ht : 0 ≤ t) :
    ((Velocity.mk v 0).mulDuration t).pose.x = v * t ∧
      ((Velocity.mk v 0).mulDuration t).pose.y = 0 ∧
      ((Velocity.mk v 0).mulDuration t).pose.re = 1 ∧
      ((Velocity.mk v 0).mulDuration t).pose.im = 0 ∧
      ((Velocity.mk v 0).mulDuration t).a = 0 ∧
      ((Velocity.mk v 0).mulDuration t).s = |v * t| ∧
      vel.mulDuration 0 = Odometry.ZERO ∧
      (Velocity.mk 0 0).mulDuration t = Odometry.ZERO := by
  rw [mulDuration_w_zero]
  refine ⟨rfl, rfl, rfl, rfl, rfl, rfl, ?_, ?_⟩
  · obtain ⟨vv, vw⟩ := vel
    have h0 : (Velocity.mk vv vw).mul 0 = ⟨0, 0⟩ := by
      simp [Velocity.mul, Velocity.mul_assign]
    have he : |(0 : ℝ)| < f32EPSILON := by rw [abs_zero]; norm_num [f32EPSILON]
    simp only [Velocity.mulDuration, h0, to_odometry_line 0 0 he,
      Real.cos_zero, Real.sin_zero, abs_zero, Odometry.ZERO]
  · rw [mulDuration_w_zero 0 t]
    simp [Odometry.ZERO]

/-- Witness for `straight_line_limit` at `v = 2`, `t = 3`. -/
theorem straight_line_limit_witness :
    (0 : ℝ) ≤ 3 ∧ ((Velocity.mk 2 0).mulDuration 3).pose.x = 2 * 3 :=
  ⟨by norm_num, (straight_line_limit 2 3 ⟨1, 1⟩ (by norm_num)).1⟩

/-- C7: scaling a velocity by `k` and integrating over duration `t` equals
integrating the unscaled velocity over duration `k·t`. -/
theorem scaling_equivalence (k t : ℝ) (vel : Velocity)
    (hk : 0 ≤ k) (ht : 0 ≤ t) :
    (vel.mul k).mulDuration t = vel.mulDuration (k * t) := by
  have h : (vel.mul k).mul t = vel.mul (k * t) := by
    simp [Velocity.mul, Velocity.mul_assign, mul_assoc]
  simp only [Velocity.mulDuration, h]

/-- Witness for `scaling_equivalence` at `k = 2`, `t = 3`, `vel = {1, 1}`. -/
theorem scaling_equivalence_witness :
    (0 : ℝ) ≤ 2 ∧ (0 : ℝ) ≤ 3 ∧
      ((Velocity.mk 1 1).mul 2).mulDuration 3 =
        (Velocity.mk 1 1).mulDuration (2 * 3) :=
  ⟨by norm_num, by norm_num,
   scaling_equivalence 2 3 ⟨1, 1⟩ (by norm_num) (by norm_num)⟩

/-- C8: `TrajectoryPredictor::next` yields `None` exactly when the underlying
status predictor's `predict` yields `None`, and on a predicted state `s` it
yields exactly the increment obtained by converting `s` through the chassis
model and integrating over the fixed control period — a function of that one
state and the period alone. -/
theorem trajectory_next_spec (State P : Type) (step : P → Option State × P)
    (tp : TrajectoryPredictor State P) :
    ((TrajectoryPredictor.next step tp).1 = none ↔
        (step tp.predictor).1 = none) ∧
      ∀ s : State, (step tp.predictor).1 = some s →
        (TrajectoryPredictor.next step tp).1 =
          some ((tp.model.volocity_from s).mulDuration tp.period) := by
  constructor
  · cases h : (step tp.predictor).1 <;>
      simp [TrajectoryPredictor.next, h]
  · intro s hs
    simp [TrajectoryPredictor.next, hs]

/-- A one-state demonstration model: state `n` drives straight at `n` m/s. -/
noncomputable def demoModel : ChassisModel ℕ := ⟨fun n => ⟨(n : ℝ), 0⟩⟩

/-- A demonstration status predictor counting up from its current state. -/
def demoStep : ℕ → Option ℕ × ℕ := fun n => (some n, n + 1)

/-- A demonstration trajectory predictor with a one-second period. -/
noncomputable def demoTP : TrajectoryPredictor ℕ ℕ := ⟨1, demoModel, 4⟩

/-- Witness for `trajectory_next_spec` on the demonstration predictor. -/
theorem trajectory_next_spec_witness :
    (TrajectoryPredictor.next demoStep demoTP).1 =
      some ((demoTP.model.volocity_from 4).mulDuration demoTP.period) :=
  (trajectory_next_spec ℕ ℕ demoStep demoTP).2 4 rfl

/-- C10: `Odometry::ZERO` renders with zero distance (3 decimal places), zero
rotation (1 decimal place, degrees), zero x/y (3 decimal places) and zero
heading (1 decimal place, degrees), exactly as the repository's own unit test
expects. -/
theorem zero_display :
    Odometry.ZERO.display =
      "Odometry: \x7b s: 0.000, a: 0.0°, x: 0.000, y: 0.000, theta: 0.0° \x7d" := by
  have f3 : fmtFixed 3 (0 : ℝ) = "0.000" := by
    simp only [fmtFixed, zero_mul, round_zero]
    rfl
  have f1 : fmtFixed 1 (0 : ℝ) = "0.0" := by
    simp only [fmtFixed, zero_mul, round_zero]
    rfl
  have harg : Iso2.angle ⟨0, 0, 1, 0⟩ = 0 := by
    show Complex.arg ⟨1, 0⟩ = 0
    rw [show (⟨1, 0⟩ : ℂ) = 1 from Complex.ext rfl rfl, Complex.arg_one]
  have htd : toDegrees (0 : ℝ) = 0 := by simp [toDegrees]
  simp only [Odometry.display, Odometry.ZERO, harg, htd, f3, f1]
  rfl
